import Mathlib

/-!
Verification of the vanguards-rs core against its specification.

The Rust sources are shallowly embedded: `f64` counters and timestamps
become exact rationals (`ℚ`), `u32`/`u64` become `ℕ`, `i64` quantities
become `ℤ`, hash maps keyed by fingerprint become association lists with
first-match lookup (hash maps never hold a key twice, and all list states
with duplicate keys are still covered soundly), and calls that read the
system clock or the random number generator take the clock value and the
random draws as explicit arguments.  Fallible Rust functions returning
`Result` become `Except Unit`.
-/

namespace VanguardsRs

/-! ## Rendezvous tracker (src/vanguards.rs, `RendUseCount` / `RendGuard`) -/

/-- The sentinel key used for relays absent from the consensus. -/
def NOT_IN_CONSENSUS_ID : String := "NOT_IN_CONSENSUS"

/-- `RendUseCount`: per-relay rendezvous usage entry (`used` and `weight`
are `f64` in the source, embedded as exact rationals). -/
structure RendUseCount where
  idhex : String
  used : ℚ
  weight : ℚ
deriving DecidableEq

/-- `RendUseCount::new`: fresh entry with `used = 0`. -/
def RendUseCount.new (idhex : String) (weight : ℚ) : RendUseCount :=
  { idhex := idhex, used := 0, weight := weight }

/-- First-match lookup in an association list, the embedding of
`HashMap::get` for `use_counts`. -/
def lookupCount : List (String × RendUseCount) → String → Option RendUseCount
  | [], _ => none
  | (k, c) :: rest, key => if k = key then some c else lookupCount rest key

/-- Update the first entry with the given key, the embedding of
`HashMap::get_mut` followed by a field update. -/
def updateCount :
    List (String × RendUseCount) → String → (RendUseCount → RendUseCount) →
    List (String × RendUseCount)
  | [], _, _ => []
  | (k, c) :: rest, key, f =>
      if k = key then (k, f c) :: rest else (k, c) :: updateCount rest key f

/-- `RendGuard`: the rendezvous tracker state. -/
structure RendGuard where
  use_counts : List (String × RendUseCount)
  total_use_counts : ℚ
  pickle_revision : ℚ
deriving DecidableEq

/-- `RendGuard::new`. -/
def RendGuard.new : RendGuard :=
  { use_counts := [], total_use_counts := 0, pickle_revision := 1 }

/-- `RendGuard::scale_counts`: halve every `used` and recompute the total
as the sum of the halved values. -/
def RendGuard.scale_counts (rg : RendGuard) : RendGuard :=
  let counts := rg.use_counts.map (fun p => (p.1, { p.2 with used := p.2.used / 2 }))
  { rg with
    use_counts := counts
    total_use_counts := (counts.map (fun p => p.2.used)).sum }

/-- `RendguardConfig` (src/config.rs): the `u32` thresholds stay natural
numbers and are cast where the source casts them with `as f64`. -/
structure RendguardConfig where
  use_global_start_count : ℕ
  use_scale_at_count : ℕ
  use_relay_start_count : ℕ
  use_max_use_to_bw_ratio : ℚ
  use_max_consensus_weight_churn : ℚ
  close_circuits_on_overuse : Bool
deriving DecidableEq

/-- The key the use is credited to in `RendGuard::valid_rend_use`: the
fingerprint itself when it is tracked, the sentinel otherwise. -/
def RendGuard.creditedId (rg : RendGuard) (fingerprint : String) : String :=
  if (lookupCount rg.use_counts fingerprint).isSome then fingerprint
  else NOT_IN_CONSENSUS_ID

/-- The `use_counts` map of `valid_rend_use` after the sentinel entry is
inserted (when needed) and the credited entry is incremented. -/
def RendGuard.creditedCounts (rg : RendGuard) (fingerprint : String) :
    List (String × RendUseCount) :=
  let base :=
    if (lookupCount rg.use_counts fingerprint).isSome then rg.use_counts
    else if (lookupCount rg.use_counts NOT_IN_CONSENSUS_ID).isSome then rg.use_counts
    else rg.use_counts ++
      [(NOT_IN_CONSENSUS_ID, RendUseCount.new NOT_IN_CONSENSUS_ID 0)]
  updateCount base (rg.creditedId fingerprint) (fun c => { c with used := c.used + 1 })

/-- `RendGuard::valid_rend_use`: credit the use, bump the total, and
return `false` (overused) exactly on the source's three-way conjunction;
the mutated tracker is returned alongside the verdict. -/
def RendGuard.valid_rend_use (rg : RendGuard) (fingerprint : String)
    (config : RendguardConfig) : Bool × RendGuard :=
  let counts := rg.creditedCounts fingerprint
  let total := rg.total_use_counts + 1
  let verdict :=
    match lookupCount counts (rg.creditedId fingerprint) with
    | some count =>
        if (config.use_global_start_count : ℚ) ≤ total
            ∧ (config.use_relay_start_count : ℚ) ≤ count.used
            ∧ count.weight * config.use_max_use_to_bw_ratio < count.used / total
        then false
        else true
    | none => true
  (verdict, { rg with use_counts := counts, total_use_counts := total })

/-- `RendGuard::is_overused`: the read-only overuse check. -/
def RendGuard.is_overused (rg : RendGuard) (fingerprint : String)
    (config : RendguardConfig) : Bool :=
  if rg.total_use_counts < (config.use_global_start_count : ℚ) then false
  else
    match lookupCount rg.use_counts fingerprint with
    | some count =>
        if count.used < (config.use_relay_start_count : ℚ) then false
        else decide
          (count.weight * config.use_max_use_to_bw_ratio < count.used / rg.total_use_counts)
    | none => false

/-- `RendGuard::usage_rate`. -/
def RendGuard.usage_rate (rg : RendGuard) (fingerprint : String) : ℚ :=
  if rg.total_use_counts ≤ 0 then 0
  else
    match lookupCount rg.use_counts fingerprint with
    | some c => 100 * c.used / rg.total_use_counts
    | none => 0

/-- `RendGuard::expected_weight`. -/
def RendGuard.expected_weight (rg : RendGuard) (fingerprint : String) : ℚ :=
  match lookupCount rg.use_counts fingerprint with
  | some c => 100 * c.weight
  | none => 0

/-! ## Input validation (src/node_selection.rs) -/

/-- ASCII hexadecimal digit test, the embedding of
`char::is_ascii_hexdigit`. -/
def isAsciiHexDigit (c : Char) : Bool :=
  c.isDigit || ( 'a' ≤ c && c ≤ 'f' ) || ( 'A' ≤ c && c ≤ 'F' )

/-- `is_valid_fingerprint`: exactly 40 characters, all ASCII hex digits.
The source tests the byte length; for a string of ASCII hex digits the
byte length and the character count coincide, and a string holding any
other character fails the digit test either way. -/
def is_valid_fingerprint (s : String) : Bool :=
  s.data.length == 40 && s.data.all isAsciiHexDigit

/-! ## Guard state (src/vanguards.rs, `GuardNode` / `VanguardState`) -/

/-- `GuardNode`: fingerprint plus the two `f64` Unix timestamps. -/
structure GuardNode where
  idhex : String
  chosen_at : ℚ
  expires_at : ℚ
deriving DecidableEq

/-- `GuardNode::new`. -/
def GuardNode.new (idhex : String) (chosen_at expires_at : ℚ) : GuardNode :=
  { idhex := idhex, chosen_at := chosen_at, expires_at := expires_at }

/-- `GuardNode::is_expired`: the source reads the system clock; the
embedding takes `now` as an argument.  The comparison is
`expires_at < now`, strict. -/
def GuardNode.is_expired (g : GuardNode) (now : ℚ) : Bool :=
  decide (g.expires_at < now)

/-- `VanguardsConfig` (src/config.rs), the fields the guard state reads. -/
structure VanguardsConfig where
  num_layer1_guards : ℕ
  num_layer2_guards : ℕ
  num_layer3_guards : ℕ
  layer1_lifetime_days : ℕ
  min_layer2_lifetime_hours : ℕ
  max_layer2_lifetime_hours : ℕ
  min_layer3_lifetime_hours : ℕ
  max_layer3_lifetime_hours : ℕ
deriving DecidableEq

/-- `VanguardState`: the persisted guard state plus the runtime
`enable_vanguards` flag, which the source marks `serde(skip)`. -/
structure VanguardState where
  layer2 : List GuardNode
  layer3 : List GuardNode
  state_file : String
  rendguard : RendGuard
  pickle_revision : ℕ
  enable_vanguards : Bool
deriving DecidableEq

/-- `VanguardState::new`. -/
def VanguardState.new (state_file : String) : VanguardState :=
  { layer2 := [], layer3 := [], state_file := state_file,
    rendguard := RendGuard.new, pickle_revision := 1, enable_vanguards := true }

/-- The per-guard checks of `VanguardState::validate`, in the source's
order: valid fingerprint, `chosen_at ≤ now + 3600`, and
`expires_at ≤ now + 3600 + 86400 * 365` (one year beyond the clock-skew
allowance). -/
def guardValid (now : ℚ) (g : GuardNode) : Bool :=
  is_valid_fingerprint g.idhex
    && !(decide (now + 3600 < g.chosen_at))
    && !(decide (now + 3600 + 86400 * 365 < g.expires_at))

/-- `VanguardState::validate` with the clock explicit: `true` means `Ok`,
`false` means the source returns `Error::State`.  Both guard layers are
checked, then every non-sentinel rendguard key must be a valid
fingerprint. -/
def VanguardState.validate (s : VanguardState) (now : ℚ) : Bool :=
  s.layer2.all (guardValid now)
    && s.layer3.all (guardValid now)
    && s.rendguard.use_counts.all
        (fun p => p.1 == NOT_IN_CONSENSUS_ID || is_valid_fingerprint p.1)

/-- `VanguardState::remove_expired_from_layer`: the source retains the
guards with `expires_at >= now`. -/
def remove_expired_from_layer (layer : List GuardNode) (now : ℚ) : List GuardNode :=
  layer.filter (fun g => decide (now ≤ g.expires_at))

/-! ## Persistence (src/vanguards.rs, `write_to_file` / `read_from_file`)

The pickle bytes themselves come from the external `serde_pickle` crate;
what the repository's source determines is the field-level content: the
five serialized fields of `VanguardState`, the `serde(skip)` attribute on
`enable_vanguards` (omitted on write, restored as the `bool` default
`false` on read), and the `validate` call `read_from_file` performs after
parsing.  The embedding models the state file at that field level. -/

/-- The serialized image of a `VanguardState`: exactly the five fields
the `serde` derive writes. -/
structure PickledState where
  layer2 : List GuardNode
  layer3 : List GuardNode
  state_file : String
  rendguard : RendGuard
  pickle_revision : ℕ
deriving DecidableEq

/-- `VanguardState::write_to_file` at the field level. -/
def VanguardState.write_to_file (s : VanguardState) : PickledState :=
  { layer2 := s.layer2, layer3 := s.layer3, state_file := s.state_file,
    rendguard := s.rendguard, pickle_revision := s.pickle_revision }

/-- `VanguardState::read_from_file` at the field level: rebuild the state
(with `enable_vanguards` at its `bool` default `false`, per
`serde(skip)`), then validate. -/
def VanguardState.read_from_file (p : PickledState) (now : ℚ) :
    Except Unit VanguardState :=
  let s : VanguardState :=
    { layer2 := p.layer2, layer3 := p.layer3, state_file := p.state_file,
      rendguard := p.rendguard, pickle_revision := p.pickle_revision,
      enable_vanguards := false }
  if s.validate now then Except.ok s else Except.error ()

/-! ## Node selection (src/node_selection.rs) -/

/-- The slice of `stem_rs::RouterStatusEntry` the core reads: identity,
flags, the two optional bandwidth values, and the addresses (embedded as
naturals, an IPv4 address being its 32-bit value). -/
structure RouterStatusEntry where
  fingerprint : String
  nickname : String
  flags : List String
  bandwidth : Option ℕ
  measured : Option ℕ
  address : ℕ
  or_addresses : List ℕ
deriving DecidableEq

/-- An IP network as base address and prefix length (IPv4 model of the
`ipnetwork` crate's type). -/
structure IpNetworkM where
  base : ℕ
  prefixLen : ℕ
deriving DecidableEq

/-- Network membership: the two addresses agree above the host bits. -/
def IpNetworkM.containsAddr (n : IpNetworkM) (a : ℕ) : Bool :=
  a / 2 ^ (32 - n.prefixLen) == n.base / 2 ^ (32 - n.prefixLen)

/-- `ExcludeNodes` (src/vanguards.rs): the parsed exclusion rules.  The
country filter needs an external geo-IP oracle and is never consulted by
`router_is_excluded`, exactly as in the source. -/
structure ExcludeNodes where
  networks : List IpNetworkM
  idhexes : List String
  nicks : List String
  countries : List String
  exclude_unknowns : Option String
deriving DecidableEq

/-- `ExcludeNodes::router_is_excluded`: fingerprint (uppercased), then
nickname, then every advertised address against every excluded network. -/
def ExcludeNodes.router_is_excluded (e : ExcludeNodes) (r : RouterStatusEntry) : Bool :=
  e.idhexes.contains r.fingerprint.toUpper
    || e.nicks.contains r.nickname
    || (r.address :: r.or_addresses).any
        (fun a => e.networks.any (fun n => n.containsAddr a))

/-- `Position` (circuit position for weight lookup). -/
inductive Position where
  | Guard
  | Middle
  | Exit
deriving DecidableEq

/-- `Position::weight_key_suffix`. -/
def Position.weight_key_suffix : Position → Char
  | .Guard => 'g'
  | .Middle => 'm'
  | .Exit => 'e'

/-- First-match lookup in the consensus weight table, the embedding of
`HashMap::get` for `bw_weights`. -/
def lookupWeight : List (String × ℤ) → String → Option ℤ
  | [], _ => none
  | (k, v) :: rest, key => if k = key then some v else lookupWeight rest key

/-- `BwWeightedGenerator`: the filtered router list, the per-router
weights, the two totals, the position, and the consensus weight table. -/
structure BwWeightedGenerator where
  rstr_routers : List RouterStatusEntry
  node_weights : List ℚ
  weight_total : ℚ
  exit_total : ℚ
  position : Position
  bw_weights : List (String × ℤ)

/-- `WEIGHT_SCALE`. -/
def WEIGHT_SCALE : ℚ := 10000

/-- `BwWeightedGenerator::flag_to_weight`: pick the weight key from the
Guard/Exit flags and the position, look it up with default `10000`, and
divide by the scale. -/
def BwWeightedGenerator.flag_to_weight (gen : BwWeightedGenerator)
    (router : RouterStatusEntry) : ℚ :=
  let has_guard := router.flags.contains "Guard"
  let has_exit := router.flags.contains "Exit"
  let pos := gen.position.weight_key_suffix
  let key :=
    if has_guard && has_exit then ("W".push pos).push 'd'
    else if has_exit then ("W".push pos).push 'e'
    else if has_guard then ("W".push pos).push 'g'
    else "Wmm"
  (((lookupWeight gen.bw_weights key).getD 10000 : ℤ) : ℚ) / WEIGHT_SCALE

/-- The flag-weight multiplier as the specification words it: `Wmm` when
the relay has neither Guard nor Exit (whatever the position), `W{p}g` for
Guard only, `W{p}e` for Exit only, `W{p}d` for both; the looked-up
integer is divided by 10000 and a missing key defaults to 1. -/
def flag_weight_spec (gen : BwWeightedGenerator)
    (router : RouterStatusEntry) : ℚ :=
  let has_guard := router.flags.contains "Guard"
  let has_exit := router.flags.contains "Exit"
  let pos := gen.position.weight_key_suffix
  let key :=
    if !has_guard && !has_exit then "Wmm"
    else if has_guard && !has_exit then ("W".push pos).push 'g'
    else if has_exit && !has_guard then ("W".push pos).push 'e'
    else ("W".push pos).push 'd'
  match lookupWeight gen.bw_weights key with
  | none => 1
  | some v => (v : ℚ) / 10000

/-- The cumulative-distribution scan inside
`BwWeightedGenerator::generate`: walk the (router, weight) pairs and
return the first router whose cumulative weight strictly exceeds the
drawn value. -/
def pickWeighted :
    List (RouterStatusEntry × ℚ) → ℚ → ℚ → Option RouterStatusEntry
  | [], _, _ => none
  | (r, w) :: rest, cumulative, choice =>
      if choice < cumulative + w then some r
      else pickWeighted rest (cumulative + w) choice

/-- `BwWeightedGenerator::generate` with the random draw explicit:
`choice_val` stands for `rng.gen_range(0.0..weight_total)`.  Fails with
no-nodes-remain when the list is empty or the total weight is not
positive; falls back to the last router when the scan runs off the
end. -/
def BwWeightedGenerator.generate (gen : BwWeightedGenerator) (choice_val : ℚ) :
    Except Unit RouterStatusEntry :=
  if gen.rstr_routers.isEmpty ∨ gen.weight_total ≤ 0 then Except.error ()
  else
    match pickWeighted (gen.rstr_routers.zip gen.node_weights) 0 choice_val with
    | some r => Except.ok r
    | none =>
        match gen.rstr_routers.getLast? with
        | some r => Except.ok r
        | none => Except.error ()

/-! ## Replenishment (src/vanguards.rs, `add_new_layer2/3`,
`replenish_layers`)

`add_new_layer2` draws from the generator up to 1000 times and from the
lifetime sampler once per accepted guard; the embedding threads a draw
index `t` through the run and reads the random values from the oracles
`rand` (the `gen_range` draw of `generate`) and `life` (the value of
`calculate_guard_lifetime`, itself the max of two uniform samples). -/

/-- The bounded accept/reject loop shared by `add_new_layer2` and
`add_new_layer3`: `existing` is the fingerprint set computed at entry,
`fuel` starts at 1000, and a drawn router is rejected while it duplicates
`existing` or is excluded. -/
def addGuardLoop (gen : BwWeightedGenerator) (excluded : ExcludeNodes)
    (rand life : ℕ → ℚ) (now : ℚ) (existing : List String) :
    ℕ → ℕ → Except Unit (GuardNode × ℕ)
  | 0, _ => Except.error ()
  | fuel + 1, t =>
      match gen.generate (rand t) with
      | Except.error _ => Except.error ()
      | Except.ok guard =>
          if existing.contains guard.fingerprint then
            addGuardLoop gen excluded rand life now existing fuel (t + 1)
          else if excluded.router_is_excluded guard then
            addGuardLoop gen excluded rand life now existing fuel (t + 1)
          else
            Except.ok (GuardNode.new guard.fingerprint now (now + life t), t + 1)

/-- `VanguardState::add_new_layer2`: one accepted guard is appended to
layer 2. -/
def VanguardState.add_new_layer2 (s : VanguardState) (gen : BwWeightedGenerator)
    (excluded : ExcludeNodes) (rand life : ℕ → ℚ) (now : ℚ) (t : ℕ) :
    Except Unit (VanguardState × ℕ) :=
  let existing := s.layer2.map (fun g => g.idhex)
  match addGuardLoop gen excluded rand life now existing 1000 t with
  | Except.error e => Except.error e
  | Except.ok (g, t2) => Except.ok ({ s with layer2 := s.layer2 ++ [g] }, t2)

/-- `VanguardState::add_new_layer3`. -/
def VanguardState.add_new_layer3 (s : VanguardState) (gen : BwWeightedGenerator)
    (excluded : ExcludeNodes) (rand life : ℕ → ℚ) (now : ℚ) (t : ℕ) :
    Except Unit (VanguardState × ℕ) :=
  let existing := s.layer3.map (fun g => g.idhex)
  match addGuardLoop gen excluded rand life now existing 1000 t with
  | Except.error e => Except.error e
  | Except.ok (g, t2) => Except.ok ({ s with layer3 := s.layer3 ++ [g] }, t2)

/-- The `while layer2.len() < target` loop of `replenish_layers`: each
`add_new_layer2` call appends exactly one guard, so the loop runs exactly
`n = target - layer2.len()` times; the embedding recurses on that
count. -/
def fillLayer2 (gen : BwWeightedGenerator) (excluded : ExcludeNodes)
    (rand life : ℕ → ℚ) (now : ℚ) :
    ℕ → VanguardState → ℕ → Except Unit (VanguardState × ℕ)
  | 0, s, t => Except.ok (s, t)
  | n + 1, s, t =>
      match s.add_new_layer2 gen excluded rand life now t with
      | Except.error e => Except.error e
      | Except.ok (s2, t2) => fillLayer2 gen excluded rand life now n s2 t2

/-- The `while layer3.len() < target` loop of `replenish_layers`. -/
def fillLayer3 (gen : BwWeightedGenerator) (excluded : ExcludeNodes)
    (rand life : ℕ → ℚ) (now : ℚ) :
    ℕ → VanguardState → ℕ → Except Unit (VanguardState × ℕ)
  | 0, s, t => Except.ok (s, t)
  | n + 1, s, t =>
      match s.add_new_layer3 gen excluded rand life now t with
      | Except.error e => Except.error e
      | Except.ok (s2, t2) => fillLayer3 gen excluded rand life now n s2 t2

/-- `VanguardState::replenish_layers`: truncate both layers to the
configured counts, then fill layer 2 and layer 3 back up to them. -/
def VanguardState.replenish_layers (s : VanguardState)
    (gen : BwWeightedGenerator) (excluded : ExcludeNodes)
    (config : VanguardsConfig) (rand life : ℕ → ℚ) (now : ℚ) (t : ℕ) :
    Except Unit (VanguardState × ℕ) :=
  let s0 := { s with
    layer2 := s.layer2.take config.num_layer2_guards
    layer3 := s.layer3.take config.num_layer3_guards }
  match fillLayer2 gen excluded rand life now
      (config.num_layer2_guards - s0.layer2.length) s0 t with
  | Except.error e => Except.error e
  | Except.ok (s1, t1) =>
      fillLayer3 gen excluded rand life now
        (config.num_layer3_guards - s1.layer3.length) s1 t1

/-- The acceptance property the specification states of a replenishment
run: reading the added guards left to right, each one came from a drawn
router that is not excluded and whose fingerprint was not yet in the
layer at the moment of the draw (`base` is the fingerprint list of the
layer when the guard was accepted). -/
def goodAdded (excluded : ExcludeNodes) : List String → List GuardNode → Prop
  | _, [] => True
  | base, g :: rest =>
      (∃ r : RouterStatusEntry, g.idhex = r.fingerprint
        ∧ excluded.router_is_excluded r = false
        ∧ base.contains r.fingerprint = false)
      ∧ goodAdded excluded (base ++ [g.idhex]) rest

/-! ## Bandwidth monitor (src/bandguards.rs) -/

/-- `CELL_PAYLOAD_SIZE`. -/
def CELL_PAYLOAD_SIZE : ℕ := 509

/-- `RELAY_HEADER_SIZE`. -/
def RELAY_HEADER_SIZE : ℕ := 11

/-- `RELAY_PAYLOAD_SIZE = CELL_PAYLOAD_SIZE - RELAY_HEADER_SIZE`. -/
def RELAY_PAYLOAD_SIZE : ℕ := CELL_PAYLOAD_SIZE - RELAY_HEADER_SIZE

/-- `BYTES_PER_KB`. -/
def BYTES_PER_KB : ℕ := 1024

/-- `BYTES_PER_MB = 1024 * BYTES_PER_KB`. -/
def BYTES_PER_MB : ℕ := 1024 * BYTES_PER_KB

/-- `BwCircuitStat`: the per-circuit record.  `u64` counters become `ℕ`,
the `f64` timestamps become `ℚ`. -/
structure BwCircuitStat where
  circ_id : String
  is_hs : Bool
  is_service : Bool
  is_hsdir : Bool
  is_serv_intro : Bool
  dropped_cells_allowed : ℕ
  purpose : Option String
  hs_state : Option String
  old_purpose : Option String
  old_hs_state : Option String
  in_use : Bool
  built : Bool
  created_at : ℚ
  read_bytes : ℕ
  sent_bytes : ℕ
  delivered_read_bytes : ℕ
  delivered_sent_bytes : ℕ
  overhead_read_bytes : ℕ
  overhead_sent_bytes : ℕ
  guard_fp : Option String
  possibly_destroyed_at : Option ℚ
deriving DecidableEq

/-- `BwCircuitStat::total_bytes`. -/
def BwCircuitStat.total_bytes (c : BwCircuitStat) : ℕ :=
  c.read_bytes + c.sent_bytes

/-- `BwCircuitStat::dropped_read_cells`: the two `u64` truncating
divisions, each cast to `i64` (lossless, since `u64 / 509 < 2^63`), then
subtracted in `i64` (no overflow at these magnitudes). -/
def BwCircuitStat.dropped_read_cells (c : BwCircuitStat) : ℤ :=
  let cells_received := c.read_bytes / CELL_PAYLOAD_SIZE
  let cells_delivered :=
    (c.delivered_read_bytes + c.overhead_read_bytes) / RELAY_PAYLOAD_SIZE
  (cells_received : ℤ) - (cells_delivered : ℤ)

/-- `BandguardsConfig` (src/config.rs). -/
structure BandguardsConfig where
  circ_max_megabytes : ℕ
  circ_max_age_hours : ℕ
  circ_max_hsdesc_kilobytes : ℕ
  circ_max_serv_intro_kilobytes : ℕ
  circ_max_disconnected_secs : ℕ
  conn_max_disconnected_secs : ℕ
deriving DecidableEq

/-- `CircuitLimitResult` (src/bandguards.rs). -/
inductive CircuitLimitResult where
  | Ok
  | DroppedCells (dropped_cells : ℤ)
  | TorBug (bug_id : String) (dropped_cells : ℤ)
  | MaxBytesExceeded (bytes : ℕ) (limit : ℕ)
  | HsdirBytesExceeded (bytes : ℕ) (limit : ℕ)
  | ServIntroBytesExceeded (bytes : ℕ) (limit : ℕ)
deriving DecidableEq

/-- `BandwidthStats::check_tor_bug_workaround`, in the source's check
order (the `_dropped` argument is unused there as well and dropped
here). -/
def check_tor_bug_workaround (circ : BwCircuitStat) : Option String :=
  let purpose := circ.purpose.getD ""
  let hs_state := circ.hs_state.getD ""
  let old_purpose := circ.old_purpose.getD ""
  let old_hs_state := circ.old_hs_state.getD ""
  if purpose = "HS_SERVICE_INTRO" ∧ hs_state = "HSSI_ESTABLISHED" then
    some "#29699"
  else if purpose = "CIRCUIT_PADDING" ∧ old_purpose = "HS_CLIENT_INTRO"
      ∧ old_hs_state = "HSCI_INTRO_SENT" then
    some "#40359"
  else if purpose = "HS_CLIENT_REND"
      ∨ (purpose = "HS_CLIENT_INTRO" ∧ hs_state = "HSCI_DONE") then
    some "#29927"
  else if purpose = "HS_SERVICE_REND" ∧ hs_state = "HSSR_CONNECTING" then
    some "#29700"
  else if purpose = "PATH_BIAS_TESTING" then
    some "#29786"
  else
    none

/-- First-match lookup in the circuit map, the embedding of
`HashMap::get` for `circs`. -/
def lookupCirc : List (String × BwCircuitStat) → String → Option BwCircuitStat
  | [], _ => none
  | (k, c) :: rest, key => if k = key then some c else lookupCirc rest key

/-- The three byte-limit checks of `check_circuit_limits`, reached both
when the dropped-cell branch falls through (unbuilt circuit, no known
bug) and when dropped cells are within the allowance. -/
def checkByteLimits (circ : BwCircuitStat) (config : BandguardsConfig) :
    CircuitLimitResult :=
  if 0 < config.circ_max_megabytes
      ∧ config.circ_max_megabytes * BYTES_PER_MB < circ.total_bytes then
    CircuitLimitResult.MaxBytesExceeded circ.total_bytes
      (config.circ_max_megabytes * BYTES_PER_MB)
  else if 0 < config.circ_max_hsdesc_kilobytes ∧ circ.is_hsdir = true
      ∧ config.circ_max_hsdesc_kilobytes * BYTES_PER_KB < circ.total_bytes then
    CircuitLimitResult.HsdirBytesExceeded circ.total_bytes
      (config.circ_max_hsdesc_kilobytes * BYTES_PER_KB)
  else if 0 < config.circ_max_serv_intro_kilobytes ∧ circ.is_serv_intro = true
      ∧ config.circ_max_serv_intro_kilobytes * BYTES_PER_KB < circ.total_bytes then
    CircuitLimitResult.ServIntroBytesExceeded circ.total_bytes
      (config.circ_max_serv_intro_kilobytes * BYTES_PER_KB)
  else
    CircuitLimitResult.Ok

/-- `BandwidthStats::check_circuit_limits`: look the circuit up (absent
means `Ok`), run the dropped-cell check with its known-bug and `built`
gates, then the byte limits. -/
def check_circuit_limits (circs : List (String × BwCircuitStat))
    (circ_id : String) (config : BandguardsConfig) : CircuitLimitResult :=
  match lookupCirc circs circ_id with
  | none => CircuitLimitResult.Ok
  | some circ =>
      let dropped := circ.dropped_read_cells
      if (circ.dropped_cells_allowed : ℤ) < dropped then
        match check_tor_bug_workaround circ with
        | some bug_id => CircuitLimitResult.TorBug bug_id dropped
        | none =>
            if circ.built then CircuitLimitResult.DroppedCells dropped
            else checkByteLimits circ config
      else checkByteLimits circ config

/-- The known-bug table as the specification lays it out, rows A to E
(the rows match on mutually exclusive purposes, so the order carries no
information). -/
def known_bug_spec (circ : BwCircuitStat) : Option String :=
  let purpose := circ.purpose.getD ""
  let hs_state := circ.hs_state.getD ""
  let old_purpose := circ.old_purpose.getD ""
  let old_hs_state := circ.old_hs_state.getD ""
  if purpose = "HS_SERVICE_INTRO" ∧ hs_state = "HSSI_ESTABLISHED" then
    some "#29699"
  else if purpose = "HS_SERVICE_REND" ∧ hs_state = "HSSR_CONNECTING" then
    some "#29700"
  else if purpose = "PATH_BIAS_TESTING" then
    some "#29786"
  else if purpose = "HS_CLIENT_REND"
      ∨ (purpose = "HS_CLIENT_INTRO" ∧ hs_state = "HSCI_DONE") then
    some "#29927"
  else if purpose = "CIRCUIT_PADDING" ∧ old_purpose = "HS_CLIENT_INTRO"
      ∧ old_hs_state = "HSCI_INTRO_SENT" then
    some "#40359"
  else
    none

/-- The ordered verdict cascade as the specification words it: known-bug
before dropped-cells (gated on `built`), then the three byte limits, each
live only when its configured limit is nonzero (and, for the last two,
when the matching classification flag is set) and `read + sent` exceeds
it. -/
def check_limits_spec (circ : BwCircuitStat) (config : BandguardsConfig) :
    CircuitLimitResult :=
  let dropped := circ.dropped_read_cells
  if (circ.dropped_cells_allowed : ℤ) < dropped ∧ (known_bug_spec circ).isSome then
    CircuitLimitResult.TorBug ((known_bug_spec circ).getD "") dropped
  else if (circ.dropped_cells_allowed : ℤ) < dropped ∧ circ.built = true then
    CircuitLimitResult.DroppedCells dropped
  else if 0 < config.circ_max_megabytes
      ∧ config.circ_max_megabytes * BYTES_PER_MB < circ.total_bytes then
    CircuitLimitResult.MaxBytesExceeded circ.total_bytes
      (config.circ_max_megabytes * BYTES_PER_MB)
  else if 0 < config.circ_max_hsdesc_kilobytes ∧ circ.is_hsdir = true
      ∧ config.circ_max_hsdesc_kilobytes * BYTES_PER_KB < circ.total_bytes then
    CircuitLimitResult.HsdirBytesExceeded circ.total_bytes
      (config.circ_max_hsdesc_kilobytes * BYTES_PER_KB)
  else if 0 < config.circ_max_serv_intro_kilobytes ∧ circ.is_serv_intro = true
      ∧ config.circ_max_serv_intro_kilobytes * BYTES_PER_KB < circ.total_bytes then
    CircuitLimitResult.ServIntroBytesExceeded circ.total_bytes
      (config.circ_max_serv_intro_kilobytes * BYTES_PER_KB)
  else
    CircuitLimitResult.Ok

/-! ## Concrete instances used by witnesses and counterexamples -/

/-- A valid 40-hex fingerprint used by concrete instances. -/
def fpA : String := "0123456789ABCDEF0123456789ABCDEF01234567"

/-- A second valid fingerprint. -/
def fpB : String := "AAAAAAAAAAAAAAAAAAAAAAAAAAAAAAAAAAAAAAAA"

/-- A guard expiring exactly at time 100. -/
def guardAt100 : GuardNode := GuardNode.new fpA 0 100

/-- A circuit record with all counters zero except 498 delivered read
bytes, making the dropped-cell count negative. -/
def negDropCirc : BwCircuitStat :=
  { circ_id := "1", is_hs := true, is_service := true, is_hsdir := false,
    is_serv_intro := false, dropped_cells_allowed := 0, purpose := none,
    hs_state := none, old_purpose := none, old_hs_state := none,
    in_use := false, built := false, created_at := 0, read_bytes := 0,
    sent_bytes := 0, delivered_read_bytes := 498, delivered_sent_bytes := 0,
    overhead_read_bytes := 0, overhead_sent_bytes := 0, guard_fp := none,
    possibly_destroyed_at := none }

/-- A rendezvous tracker whose single entry is ready to be quartered. -/
def rgQuarter : RendGuard :=
  { use_counts := [(fpA, { idhex := fpA, used := 8, weight := 1 })],
    total_use_counts := 8, pickle_revision := 1 }

/-- A rendguard configuration with small start counts. -/
def cfgSmall : RendguardConfig :=
  { use_global_start_count := 10, use_scale_at_count := 20000,
    use_relay_start_count := 5, use_max_use_to_bw_ratio := 5,
    use_max_consensus_weight_churn := 1, close_circuits_on_overuse := true }

/-- A tracker holding only the zero-weight sentinel, one use short of the
global start count. -/
def rgSentinel : RendGuard :=
  { use_counts :=
      [(NOT_IN_CONSENSUS_ID,
        { idhex := NOT_IN_CONSENSUS_ID, used := 5, weight := 0 })],
    total_use_counts := 9, pickle_revision := 1 }

/-- A state whose single guard expires between `now + 365 d` and the
code's actual bound `now + 1 h + 365 d`. -/
def stateExpiry : VanguardState :=
  { layer2 := [GuardNode.new fpA 0 31537800], layer3 := [],
    state_file := "s", rendguard := RendGuard.new, pickle_revision := 1,
    enable_vanguards := true }

/-- A guard used twice in the duplicate-layer counterexample. -/
def guardDup : GuardNode := GuardNode.new fpA 0 10

/-- A state whose layer 2 already holds the same fingerprint twice. -/
def stateDup : VanguardState :=
  { layer2 := [guardDup, guardDup], layer3 := [], state_file := "s",
    rendguard := RendGuard.new, pickle_revision := 1, enable_vanguards := true }

/-- Guard-count configuration asking for exactly the two duplicates. -/
def cfgDup : VanguardsConfig :=
  { num_layer1_guards := 2, num_layer2_guards := 2, num_layer3_guards := 0,
    layer1_lifetime_days := 0, min_layer2_lifetime_hours := 24,
    max_layer2_lifetime_hours := 1080, min_layer3_lifetime_hours := 1,
    max_layer3_lifetime_hours := 48 }

/-- A generator with no routers (never drawn from in the counterexample). -/
def genEmpty : BwWeightedGenerator :=
  { rstr_routers := [], node_weights := [], weight_total := 0,
    exit_total := 0, position := Position.Middle, bw_weights := [] }

/-- An exclusion set with no rules. -/
def exclEmpty : ExcludeNodes :=
  { networks := [], idhexes := [], nicks := [], countries := [],
    exclude_unknowns := none }

/-- A single acceptable router for the replenishment witness. -/
def routerW : RouterStatusEntry :=
  { fingerprint := fpB, nickname := "nick",
    flags := ["Fast", "Stable", "Valid"], bandwidth := some 1,
    measured := some 1, address := 0, or_addresses := [] }

/-- A generator holding exactly `routerW` with weight 1. -/
def genOne : BwWeightedGenerator :=
  { rstr_routers := [routerW], node_weights := [1], weight_total := 1,
    exit_total := 0, position := Position.Middle, bw_weights := [] }

/-- Guard-count configuration asking for one layer-2 guard and no
layer-3 guards. -/
def cfgOne : VanguardsConfig :=
  { num_layer1_guards := 2, num_layer2_guards := 1, num_layer3_guards := 0,
    layer1_lifetime_days := 0, min_layer2_lifetime_hours := 24,
    max_layer2_lifetime_hours := 1080, min_layer3_lifetime_hours := 1,
    max_layer3_lifetime_hours := 48 }

/-- A second distinct guard for the replenishment witness. -/
def guardB : GuardNode := GuardNode.new fpB 0 10

/-- A duplicate-free state already holding its two target layer-2
guards. -/
def stateTwo : VanguardState :=
  { layer2 := [guardDup, guardB], layer3 := [], state_file := "s",
    rendguard := RendGuard.new, pickle_revision := 1, enable_vanguards := true }

end VanguardsRs

namespace VanguardsRs

/-! ## Helper lemmas -/

/-- A natural truncating division, cast to `ℤ`, is the floor of the exact
rational quotient. -/
theorem natDiv_cast_eq_floor (a b : ℕ) :
    ((a / b : ℕ) : ℤ) = ⌊(a : ℚ) / (b : ℚ)⌋ := by
  have h := Rat.floor_intCast_div_natCast (a : ℤ) b
  push_cast at h
  rw [h, Int.natCast_div]

/-! ## C5: the dropped-cell formula -/

/-- C5: for every circuit record, `dropped_read_cells` equals
`floor(read / 509) - floor((delivered_read + overhead_read) / 498)`
computed exactly over the integers, and the value can be negative. -/
theorem c5_dropped_cell_formula :
    (∀ c : BwCircuitStat,
      c.dropped_read_cells =
        ⌊(c.read_bytes : ℚ) / 509⌋
          - ⌊((c.delivered_read_bytes : ℚ) + (c.overhead_read_bytes : ℚ)) / 498⌋)
    ∧ ∃ c : BwCircuitStat, c.dropped_read_cells < 0 := by
  constructor
  · intro c
    have h1 : RELAY_PAYLOAD_SIZE = 498 := by
      norm_num [RELAY_PAYLOAD_SIZE, CELL_PAYLOAD_SIZE, RELAY_HEADER_SIZE]
    simp only [BwCircuitStat.dropped_read_cells, h1, CELL_PAYLOAD_SIZE]
    rw [natDiv_cast_eq_floor, natDiv_cast_eq_floor]
    norm_num
  · exact ⟨negDropCirc, by decide⟩

/-! ## C7: guard expiry is strict in the code -/

/-- C7 counterexample: a guard whose `expires_at` equals the current time
is not considered expired (`is_expired` is `false`) and survives
`remove_expired_from_layer`, contradicting the claim that expiry holds
whenever current-time is greater than or equal to `expires_at`. -/
theorem c7_counterexample :
    guardAt100.is_expired 100 = false
      ∧ remove_expired_from_layer [guardAt100] 100 = [guardAt100] := by
  constructor
  · decide
  · decide

/-- C7 amended: a guard is expired exactly when the current time is
strictly past `expires_at`, and `remove_expired_from_layer` keeps
precisely the guards with `now ≤ expires_at` — so a guard whose
`expires_at` equals the current time is kept. -/
theorem c7_expiry_strict (g : GuardNode) (now : ℚ) (layer : List GuardNode) :
    (g.is_expired now = true ↔ g.expires_at < now)
      ∧ (g ∈ remove_expired_from_layer layer now ↔ g ∈ layer ∧ now ≤ g.expires_at) := by
  constructor
  · simp [GuardNode.is_expired]
  · simp [remove_expired_from_layer, List.mem_filter]

/-! ## C8: the flag-weight multiplier -/

/-- C8: `flag_to_weight` computes exactly the multiplier the
specification describes: `Wmm` when the relay has neither Guard nor Exit
(whatever the position), `W{p}g` for Guard only, `W{p}e` for Exit only,
`W{p}d` for both, the looked-up integer divided by 10000, and a missing
key defaulting to 1. -/
theorem c8_flag_weight (gen : BwWeightedGenerator) (router : RouterStatusEntry) :
    gen.flag_to_weight router = flag_weight_spec gen router := by
  unfold BwWeightedGenerator.flag_to_weight flag_weight_spec WEIGHT_SCALE
  cases hg : router.flags.contains "Guard" <;>
    cases he : router.flags.contains "Exit" <;>
      simp only [hg, he, Bool.and_self, Bool.and_false, Bool.false_and,
        Bool.and_true, Bool.true_and, Bool.not_true, Bool.not_false,
        if_true, if_false, Bool.false_eq_true, Bool.true_eq_false] <;>
    (cases hl : lookupWeight gen.bw_weights _ <;> simp [hl])

/-! ## C9: scaling twice quarters the counts -/

/-- C9: applying `scale_counts` twice maps every per-relay `used` value
to one quarter of its original value, and when the stored total equals
the sum of the `used` values beforehand the total is likewise
quartered. -/
theorem c9_scale_twice (rg : RendGuard) :
    ((rg.scale_counts).scale_counts).use_counts
        = rg.use_counts.map (fun p => (p.1, { p.2 with used := p.2.used / 4 }))
      ∧ (rg.total_use_counts = (rg.use_counts.map (fun p => p.2.used)).sum →
          ((rg.scale_counts).scale_counts).total_use_counts
            = rg.total_use_counts / 4) := by
  constructor
  · unfold RendGuard.scale_counts
    simp only [List.map_map]
    refine List.map_congr_left ?_
    rintro ⟨k, u⟩ -
    obtain ⟨i, us, w⟩ := u
    simp only [Function.comp_apply, Prod.mk.injEq, RendUseCount.mk.injEq,
      true_and, and_true]
    rw [div_div]
    norm_num
  · intro h
    unfold RendGuard.scale_counts
    simp only [List.map_map]
    rw [h]
    induction rg.use_counts with
    | nil => simp
    | cons q l ih =>
        simp only [List.map_cons, List.sum_cons, Function.comp_apply] at *
        rw [ih]
        ring

/-- C9 witness: quartering observed on a concrete tracker whose total
equals the sum of its used values. -/
theorem c9_scale_twice_witness :
    ((rgQuarter.scale_counts).scale_counts).total_use_counts
      = rgQuarter.total_use_counts / 4 :=
  (c9_scale_twice rgQuarter).2 (by simp [rgQuarter])

/-! ## Lookup lemmas for the rendezvous tracker -/

/-- `lookupCount` on the empty list. -/
theorem lookupCount_nil (key : String) : lookupCount [] key = none := rfl

/-- `lookupCount` on a cons cell. -/
theorem lookupCount_cons (k : String) (c : RendUseCount)
    (rest : List (String × RendUseCount)) (key : String) :
    lookupCount ((k, c) :: rest) key
      = if k = key then some c else lookupCount rest key := rfl

/-- Looking up the updated key returns the updated entry. -/
theorem lookupCount_update_self (l : List (String × RendUseCount))
    (k : String) (f : RendUseCount → RendUseCount) :
    lookupCount (updateCount l k f) k = (lookupCount l k).map f := by
  induction l with
  | nil => simp [updateCount, lookupCount]
  | cons p rest ih =>
      obtain ⟨k2, c⟩ := p
      by_cases h : k2 = k
      · simp [updateCount, lookupCount, h]
      · simp [updateCount, lookupCount, h, ih]

/-- Lookup passes over a prefix that does not hold the key. -/
theorem lookupCount_append_of_none (l m : List (String × RendUseCount))
    (k : String) (h : lookupCount l k = none) :
    lookupCount (l ++ m) k = lookupCount m k := by
  induction l with
  | nil => simp
  | cons p rest ih =>
      obtain ⟨k2, c⟩ := p
      rw [lookupCount_cons] at h
      by_cases h2 : k2 = k
      · rw [if_pos h2] at h
        exact absurd h (by simp)
      · rw [if_neg h2] at h
        rw [List.cons_append, lookupCount_cons, if_neg h2]
        exact ih h

/-! ## C1: the overuse verdict -/

/-- C1: `valid_rend_use` returns `false` (overused) iff, after the use is
credited, all three conditions hold of the credited entry: the new total
reaches the global start count, the entry's `used` reaches the relay
start count, and `used / total` exceeds `weight * max_use_to_bw_ratio`;
and `is_overused` returns `true` iff the same three conditions hold of
the looked-up entry on the unmodified state.  In particular a total below
the global start count or a `used` below the relay start count always
yields the valid verdict, whatever the ratio. -/
theorem c1_overuse_verdict (rg : RendGuard) (fp : String)
    (config : RendguardConfig) :
    ((rg.valid_rend_use fp config).1 = false ↔
      ∃ c, lookupCount ((rg.valid_rend_use fp config).2.use_counts)
            (rg.creditedId fp) = some c
        ∧ (config.use_global_start_count : ℚ)
            ≤ (rg.valid_rend_use fp config).2.total_use_counts
        ∧ (config.use_relay_start_count : ℚ) ≤ c.used
        ∧ c.weight * config.use_max_use_to_bw_ratio
            < c.used / (rg.valid_rend_use fp config).2.total_use_counts)
    ∧ (rg.is_overused fp config = true ↔
      ∃ c, lookupCount rg.use_counts fp = some c
        ∧ (config.use_global_start_count : ℚ) ≤ rg.total_use_counts
        ∧ (config.use_relay_start_count : ℚ) ≤ c.used
        ∧ c.weight * config.use_max_use_to_bw_ratio
            < c.used / rg.total_use_counts) := by
  constructor
  · unfold RendGuard.valid_rend_use
    cases h : lookupCount (rg.creditedCounts fp) (rg.creditedId fp) with
    | none => simp [h]
    | some c =>
        by_cases hc : (config.use_global_start_count : ℚ) ≤ rg.total_use_counts + 1
            ∧ (config.use_relay_start_count : ℚ) ≤ c.used
            ∧ c.weight * config.use_max_use_to_bw_ratio
                < c.used / (rg.total_use_counts + 1)
        · simp [h, hc]
        · simp only [h, if_neg hc]
          simp [hc]
  · unfold RendGuard.is_overused
    by_cases h1 : rg.total_use_counts < (config.use_global_start_count : ℚ)
    · simp only [if_pos h1, Bool.false_eq_true, false_iff]
      rintro ⟨c, -, hg, -⟩
      exact absurd hg (not_le.mpr h1)
    · cases h2 : lookupCount rg.use_counts fp with
      | none => simp [h1, h2]
      | some c =>
          by_cases h3 : c.used < (config.use_relay_start_count : ℚ)
          · simp only [if_neg h1, h2, if_pos h3, Bool.false_eq_true, false_iff]
            rintro ⟨c2, hc2, -, hr, -⟩
            rw [Option.some_inj] at hc2
            subst hc2
            exact absurd hr (not_le.mpr h3)
          · simp [h1, h2, h3, not_lt.mp h1, not_lt.mp h3]

/-! ## C10: the zero-weight sentinel -/

/-- C10: when `valid_rend_use` sees an untracked fingerprint and no
sentinel entry exists yet, it creates the sentinel with weight 0 (not the
configured churn allowance) and `used = 1`; and once the sentinel has
weight 0, any further use credited to it with the post-credit total at
the global start count and the post-credit `used` at the relay start
count is reported overused, for any nonnegative
`use_max_use_to_bw_ratio`. -/
theorem c10_sentinel_zero_weight :
    (∀ (rg : RendGuard) (fp : String) (config : RendguardConfig),
      lookupCount rg.use_counts fp = none →
      lookupCount rg.use_counts NOT_IN_CONSENSUS_ID = none →
      lookupCount ((rg.valid_rend_use fp config).2.use_counts) NOT_IN_CONSENSUS_ID
        = some { idhex := NOT_IN_CONSENSUS_ID, used := 1, weight := 0 })
    ∧ (∀ (rg : RendGuard) (fp : String) (config : RendguardConfig)
        (c : RendUseCount),
      lookupCount rg.use_counts fp = none →
      lookupCount rg.use_counts NOT_IN_CONSENSUS_ID = some c →
      c.weight = 0 →
      0 ≤ config.use_max_use_to_bw_ratio →
      0 < c.used + 1 →
      0 < rg.total_use_counts + 1 →
      (config.use_global_start_count : ℚ) ≤ rg.total_use_counts + 1 →
      (config.use_relay_start_count : ℚ) ≤ c.used + 1 →
      (rg.valid_rend_use fp config).1 = false) := by
  constructor
  · intro rg fp config hfp hsent
    have hid : rg.creditedId fp = NOT_IN_CONSENSUS_ID := by
      simp [RendGuard.creditedId, hfp]
    have hbase : rg.creditedCounts fp
        = updateCount (rg.use_counts ++
            [(NOT_IN_CONSENSUS_ID, RendUseCount.new NOT_IN_CONSENSUS_ID 0)])
          NOT_IN_CONSENSUS_ID (fun c => { c with used := c.used + 1 }) := by
      simp [RendGuard.creditedCounts, hfp, hsent, hid]
    simp only [RendGuard.valid_rend_use, hbase, hid]
    rw [lookupCount_update_self,
      lookupCount_append_of_none _ _ _ hsent]
    simp [lookupCount, RendUseCount.new]
  · intro rg fp config c hfp hsent hw hr hu ht hg hrel
    have hid : rg.creditedId fp = NOT_IN_CONSENSUS_ID := by
      simp [RendGuard.creditedId, hfp]
    have hbase : rg.creditedCounts fp
        = updateCount rg.use_counts NOT_IN_CONSENSUS_ID
            (fun c => { c with used := c.used + 1 }) := by
      simp [RendGuard.creditedCounts, hfp, hsent, hid]
    have hlook : lookupCount (rg.creditedCounts fp) (rg.creditedId fp)
        = some { c with used := c.used + 1 } := by
      rw [hid, hbase, lookupCount_update_self, hsent]
      rfl
    simp only [RendGuard.valid_rend_use, hlook]
    rw [if_pos]
    refine ⟨hg, hrel, ?_⟩
    rw [hw]
    rw [zero_mul]
    exact div_pos hu ht

/-- C10 witness: the sentinel created on a fresh tracker has weight 0 and
one use, and on a tracker one use short of the start counts the next
sentinel use is reported overused. -/
theorem c10_sentinel_zero_weight_witness :
    lookupCount ((RendGuard.new.valid_rend_use fpA cfgSmall).2.use_counts)
        NOT_IN_CONSENSUS_ID
      = some { idhex := NOT_IN_CONSENSUS_ID, used := 1, weight := 0 }
    ∧ (rgSentinel.valid_rend_use fpA cfgSmall).1 = false :=
  ⟨c10_sentinel_zero_weight.1 RendGuard.new fpA cfgSmall rfl rfl,
   c10_sentinel_zero_weight.2 rgSentinel fpA cfgSmall
      { idhex := NOT_IN_CONSENSUS_ID, used := 5, weight := 0 }
      (by simp [rgSentinel, lookupCount_cons, lookupCount_nil, fpA,
            NOT_IN_CONSENSUS_ID])
      (by simp [rgSentinel, lookupCount_cons])
      rfl
      (by norm_num [cfgSmall])
      (by norm_num)
      (by norm_num [rgSentinel])
      (by norm_num [rgSentinel, cfgSmall])
      (by norm_num [cfgSmall])⟩

/-! ## C6: state validation bounds -/

/-- Every list satisfies `all p = false` iff one element fails `p`. -/
theorem list_all_eq_false {α : Type} (l : List α) (p : α → Bool) :
    l.all p = false ↔ ∃ x ∈ l, p x = false := by
  rw [← Bool.not_eq_true]
  simp [List.all_eq_true]

/-- The per-guard validation check fails iff one of the three conditions
is violated. -/
theorem guardValid_eq_false_iff (now : ℚ) (g : GuardNode) :
    guardValid now g = false ↔
      is_valid_fingerprint g.idhex = false
        ∨ now + 3600 < g.chosen_at
        ∨ now + 3600 + 86400 * 365 < g.expires_at := by
  unfold guardValid
  simp only [Bool.and_eq_false_iff, Bool.not_eq_false', Bool.not_eq_true',
    decide_eq_true_eq, decide_eq_false_iff_not, or_assoc, not_lt]

/-- The rendguard key check fails iff the key is neither the sentinel
nor a valid fingerprint. -/
theorem rendKey_eq_false_iff (p : String × RendUseCount) :
    ((p.1 == NOT_IN_CONSENSUS_ID || is_valid_fingerprint p.1) = false) ↔
      p.1 ≠ NOT_IN_CONSENSUS_ID ∧ is_valid_fingerprint p.1 = false := by
  simp [Bool.or_eq_false_iff]

/-- C6 counterexample: a guard whose `expires_at` exceeds `now + 365`
days (`now = 0`, `expires_at = 31537800 > 31536000`) is accepted by
`validate`, because the code's actual bound is `now + 1 h + 365 d`; the
claim says such a state is rejected. -/
theorem c6_counterexample :
    VanguardState.validate stateExpiry 0 = true
      ∧ (0 : ℚ) + 86400 * 365 < 31537800 := by
  have hfp : is_valid_fingerprint fpA = true := by decide
  constructor
  · simp only [stateExpiry, VanguardState.validate, guardValid, GuardNode.new,
      RendGuard.new, List.all_cons, List.all_nil, Bool.and_true, hfp,
      Bool.true_and]
    norm_num
  · norm_num

/-- C6 amended: `validate` errors iff some guard of layer 2 or layer 3
has an invalid fingerprint, a `chosen_at` beyond `now + 1` hour, or an
`expires_at` beyond `now + 1 hour + 365` days, or some non-sentinel
rendguard key is not a valid 40-hex fingerprint. -/
theorem c6_validate_iff (s : VanguardState) (now : ℚ) :
    s.validate now = false ↔
      (∃ g ∈ s.layer2, is_valid_fingerprint g.idhex = false
        ∨ now + 3600 < g.chosen_at
        ∨ now + 3600 + 86400 * 365 < g.expires_at)
      ∨ (∃ g ∈ s.layer3, is_valid_fingerprint g.idhex = false
        ∨ now + 3600 < g.chosen_at
        ∨ now + 3600 + 86400 * 365 < g.expires_at)
      ∨ (∃ p ∈ s.rendguard.use_counts,
          p.1 ≠ NOT_IN_CONSENSUS_ID ∧ is_valid_fingerprint p.1 = false) := by
  unfold VanguardState.validate
  simp only [Bool.and_eq_false_iff, list_all_eq_false, guardValid_eq_false_iff,
    rendKey_eq_false_iff, or_assoc]

/-! ## C2: the state round trip -/

/-- C2 counterexample: write-then-read on a freshly created (and valid)
state does not return the state itself: the `serde(skip)` field
`enable_vanguards` comes back as `false` while the original holds
`true`, so the claimed equality of all fields fails. -/
theorem c2_counterexample :
    (VanguardState.new "vanguards.state").validate 0 = true
      ∧ VanguardState.read_from_file
          (VanguardState.new "vanguards.state").write_to_file 0
        = Except.ok
            { VanguardState.new "vanguards.state" with enable_vanguards := false }
      ∧ ({ VanguardState.new "vanguards.state" with enable_vanguards := false }
          : VanguardState)
        ≠ VanguardState.new "vanguards.state" := by
  refine ⟨rfl, rfl, ?_⟩
  intro h
  have := congrArg VanguardState.enable_vanguards h
  simp [VanguardState.new] at this

/-- C2 amended: for every state passing `validate`, write-then-read
returns the state with the five persisted fields unchanged and
`enable_vanguards` reset to the `bool` default `false`. -/
theorem c2_round_trip (s : VanguardState) (now : ℚ)
    (h : s.validate now = true) :
    VanguardState.read_from_file s.write_to_file now
      = Except.ok { s with enable_vanguards := false } := by
  unfold VanguardState.read_from_file VanguardState.write_to_file
  rw [if_pos]
  exact h

/-- C2 witness: the round trip evaluated on a concrete valid state. -/
theorem c2_round_trip_witness :
    VanguardState.read_from_file
        (VanguardState.new "vanguards.state").write_to_file 0
      = Except.ok
          { VanguardState.new "vanguards.state" with enable_vanguards := false } :=
  c2_round_trip (VanguardState.new "vanguards.state") 0 rfl

/-! ## C4: the circuit-limit cascade -/

/-- The three purposes named by distinct known-bug rows are pairwise
distinct strings, so the code's check order and the specification's
table order give the same answer. -/
theorem check_tor_bug_eq_spec (circ : BwCircuitStat) :
    check_tor_bug_workaround circ = known_bug_spec circ := by
  unfold check_tor_bug_workaround known_bug_spec
  dsimp only
  generalize circ.purpose.getD "" = p
  generalize circ.hs_state.getD "" = hs
  generalize circ.old_purpose.getD "" = op
  generalize circ.old_hs_state.getD "" = oh
  by_cases h1 : p = "HS_SERVICE_INTRO" ∧ hs = "HSSI_ESTABLISHED"
  · rw [if_pos h1, if_pos h1]
  · rw [if_neg h1, if_neg h1]
    by_cases h2 : p = "CIRCUIT_PADDING" ∧ op = "HS_CLIENT_INTRO"
        ∧ oh = "HSCI_INTRO_SENT"
    · obtain ⟨e1, e2, e3⟩ := h2
      subst e1
      subst e2
      subst e3
      simp
    · rw [if_neg h2]
      by_cases h3 : p = "HS_CLIENT_REND"
          ∨ (p = "HS_CLIENT_INTRO" ∧ hs = "HSCI_DONE")
      · rcases h3 with e | ⟨e, e2⟩
        · subst e
          simp
        · subst e
          subst e2
          simp
      · rw [if_neg h3]
        by_cases h4 : p = "HS_SERVICE_REND" ∧ hs = "HSSR_CONNECTING"
        · obtain ⟨e, e2⟩ := h4
          subst e
          subst e2
          simp
        · rw [if_neg h4]
          by_cases h5 : p = "PATH_BIAS_TESTING"
          · subst h5
            simp
          · rw [if_neg h5, if_neg h4, if_neg h5, if_neg h3, if_neg h2]

/-- C4: `check_circuit_limits` returns, for every tracked circuit,
exactly the first verdict of the specification's ordered cascade: the
known-bug verdict when dropped cells exceed the allowance and one of the
five bug patterns matches; otherwise dropped-cells when the circuit is
built; then each byte limit, live only when configured nonzero (and the
matching classification flag set) and `read + sent` exceeds it.  An
untracked id yields `Ok`. -/
theorem c4_limit_cascade (circs : List (String × BwCircuitStat))
    (circ_id : String) (config : BandguardsConfig) :
    check_circuit_limits circs circ_id config
      = match lookupCirc circs circ_id with
        | none => CircuitLimitResult.Ok
        | some circ => check_limits_spec circ config := by
  unfold check_circuit_limits
  cases h : lookupCirc circs circ_id with
  | none => rfl
  | some circ =>
      dsimp only
      unfold check_limits_spec checkByteLimits
      rw [check_tor_bug_eq_spec]
      by_cases hd : (circ.dropped_cells_allowed : ℤ) < circ.dropped_read_cells
      · cases hb : known_bug_spec circ with
        | some bug => simp [hd, hb]
        | none =>
            by_cases hbuilt : circ.built = true
            · simp [hd, hb, hbuilt]
            · simp [hd, hb, hbuilt]
      · simp [hd]

/-! ## C3: replenishment invariants -/

/-- A guard returned by the accept/reject loop comes from a drawn router
that is neither excluded nor already present in `existing`. -/
theorem addGuardLoop_ok (gen : BwWeightedGenerator) (excluded : ExcludeNodes)
    (rand life : ℕ → ℚ) (now : ℚ) (existing : List String) :
    ∀ (fuel t : ℕ) (g : GuardNode) (t2 : ℕ),
      addGuardLoop gen excluded rand life now existing fuel t
          = Except.ok (g, t2) →
      ∃ r : RouterStatusEntry, g.idhex = r.fingerprint
        ∧ excluded.router_is_excluded r = false
        ∧ existing.contains r.fingerprint = false := by
  intro fuel
  induction fuel with
  | zero =>
      intro t g t2 h
      simp [addGuardLoop] at h
  | succ n ih =>
      intro t g t2 h
      unfold addGuardLoop at h
      cases hg : gen.generate (rand t) with
      | error e =>
          rw [hg] at h
          exact absurd h (by simp)
      | ok r =>
          rw [hg] at h
          dsimp only at h
          by_cases hc : existing.contains r.fingerprint = true
          · rw [if_pos hc] at h
            exact ih _ _ _ h
          · rw [if_neg hc] at h
            by_cases he : excluded.router_is_excluded r = true
            · rw [if_pos he] at h
              exact ih _ _ _ h
            · rw [if_neg he] at h
              simp only [Except.ok.injEq, Prod.mk.injEq] at h
              obtain ⟨hgEq, -⟩ := h
              refine ⟨r, ?_, by simpa using he, by simpa using hc⟩
              rw [← hgEq]
              rfl

/-- `add_new_layer2` appends exactly one acceptable guard to layer 2. -/
theorem add_new_layer2_ok (s : VanguardState) (gen : BwWeightedGenerator)
    (excluded : ExcludeNodes) (rand life : ℕ → ℚ) (now : ℚ) (t : ℕ)
    (s2 : VanguardState) (t2 : ℕ)
    (h : s.add_new_layer2 gen excluded rand life now t = Except.ok (s2, t2)) :
    ∃ g, s2 = { s with layer2 := s.layer2 ++ [g] }
      ∧ ∃ r : RouterStatusEntry, g.idhex = r.fingerprint
        ∧ excluded.router_is_excluded r = false
        ∧ (s.layer2.map GuardNode.idhex).contains r.fingerprint = false := by
  unfold VanguardState.add_new_layer2 at h
  dsimp only at h
  cases hl : addGuardLoop gen excluded rand life now
      (s.layer2.map fun g => g.idhex) 1000 t with
  | error e =>
      rw [hl] at h
      exact absurd h (by simp)
  | ok p =>
      obtain ⟨g, t3⟩ := p
      rw [hl] at h
      simp only [Except.ok.injEq, Prod.mk.injEq] at h
      obtain ⟨hs, -⟩ := h
      refine ⟨g, hs.symm, ?_⟩
      have := addGuardLoop_ok gen excluded rand life now _ 1000 t g t3 hl
      simpa using this

/-- `add_new_layer3` appends exactly one acceptable guard to layer 3. -/
theorem add_new_layer3_ok (s : VanguardState) (gen : BwWeightedGenerator)
    (excluded : ExcludeNodes) (rand life : ℕ → ℚ) (now : ℚ) (t : ℕ)
    (s2 : VanguardState) (t2 : ℕ)
    (h : s.add_new_layer3 gen excluded rand life now t = Except.ok (s2, t2)) :
    ∃ g, s2 = { s with layer3 := s.layer3 ++ [g] }
      ∧ ∃ r : RouterStatusEntry, g.idhex = r.fingerprint
        ∧ excluded.router_is_excluded r = false
        ∧ (s.layer3.map GuardNode.idhex).contains r.fingerprint = false := by
  unfold VanguardState.add_new_layer3 at h
  dsimp only at h
  cases hl : addGuardLoop gen excluded rand life now
      (s.layer3.map fun g => g.idhex) 1000 t with
  | error e =>
      rw [hl] at h
      exact absurd h (by simp)
  | ok p =>
      obtain ⟨g, t3⟩ := p
      rw [hl] at h
      simp only [Except.ok.injEq, Prod.mk.injEq] at h
      obtain ⟨hs, -⟩ := h
      refine ⟨g, hs.symm, ?_⟩
      have := addGuardLoop_ok gen excluded rand life now _ 1000 t g t3 hl
      simpa using this

/-- A successful layer-2 fill appends exactly `n` acceptable guards and
leaves layer 3 untouched. -/
theorem fillLayer2_ok (gen : BwWeightedGenerator) (excluded : ExcludeNodes)
    (rand life : ℕ → ℚ) (now : ℚ) :
    ∀ (n : ℕ) (s : VanguardState) (t : ℕ) (s2 : VanguardState) (t2 : ℕ),
      fillLayer2 gen excluded rand life now n s t = Except.ok (s2, t2) →
      ∃ added, s2.layer2 = s.layer2 ++ added
        ∧ added.length = n
        ∧ goodAdded excluded (s.layer2.map GuardNode.idhex) added
        ∧ s2.layer3 = s.layer3 := by
  intro n
  induction n with
  | zero =>
      intro s t s2 t2 h
      simp only [fillLayer2, Except.ok.injEq, Prod.mk.injEq] at h
      obtain ⟨hs, -⟩ := h
      subst hs
      exact ⟨[], by simp, rfl, trivial, rfl⟩
  | succ n ih =>
      intro s t s2 t2 h
      unfold fillLayer2 at h
      cases ha : s.add_new_layer2 gen excluded rand life now t with
      | error e =>
          rw [ha] at h
          exact absurd h (by simp)
      | ok p =>
          obtain ⟨s', t'⟩ := p
          rw [ha] at h
          obtain ⟨g, hs', r, hid, hexcl, hcont⟩ :=
            add_new_layer2_ok s gen excluded rand life now t s' t' ha
          obtain ⟨added, hl2, hlen, hgood, hl3⟩ := ih s' t' s2 t2 h
          subst hs'
          refine ⟨g :: added, ?_, by simp [hlen], ?_, by simpa using hl3⟩
          · simpa [List.append_assoc] using hl2
          · exact ⟨⟨r, hid, hexcl, hcont⟩, by simpa [hid] using hgood⟩

/-- A successful layer-3 fill appends exactly `n` acceptable guards and
leaves layer 2 untouched. -/
theorem fillLayer3_ok (gen : BwWeightedGenerator) (excluded : ExcludeNodes)
    (rand life : ℕ → ℚ) (now : ℚ) :
    ∀ (n : ℕ) (s : VanguardState) (t : ℕ) (s2 : VanguardState) (t2 : ℕ),
      fillLayer3 gen excluded rand life now n s t = Except.ok (s2, t2) →
      ∃ added, s2.layer3 = s.layer3 ++ added
        ∧ added.length = n
        ∧ goodAdded excluded (s.layer3.map GuardNode.idhex) added
        ∧ s2.layer2 = s.layer2 := by
  intro n
  induction n with
  | zero =>
      intro s t s2 t2 h
      simp only [fillLayer3, Except.ok.injEq, Prod.mk.injEq] at h
      obtain ⟨hs, -⟩ := h
      subst hs
      exact ⟨[], by simp, rfl, trivial, rfl⟩
  | succ n ih =>
      intro s t s2 t2 h
      unfold fillLayer3 at h
      cases ha : s.add_new_layer3 gen excluded rand life now t with
      | error e =>
          rw [ha] at h
          exact absurd h (by simp)
      | ok p =>
          obtain ⟨s', t'⟩ := p
          rw [ha] at h
          obtain ⟨g, hs', r, hid, hexcl, hcont⟩ :=
            add_new_layer3_ok s gen excluded rand life now t s' t' ha
          obtain ⟨added, hl3, hlen, hgood, hl2⟩ := ih s' t' s2 t2 h
          subst hs'
          refine ⟨g :: added, ?_, by simp [hlen], ?_, by simpa using hl2⟩
          · simpa [List.append_assoc] using hl3
          · exact ⟨⟨r, hid, hexcl, hcont⟩, by simpa [hid] using hgood⟩

/-- Acceptable additions on top of a duplicate-free layer keep the
fingerprint list duplicate-free. -/
theorem goodAdded_nodup (excluded : ExcludeNodes) :
    ∀ (added : List GuardNode) (base : List String),
      goodAdded excluded base added → base.Nodup →
      (base ++ added.map GuardNode.idhex).Nodup := by
  intro added
  induction added with
  | nil =>
      intro base _ hb
      simpa using hb
  | cons g rest ih =>
      intro base hgood hb
      obtain ⟨⟨r, hid, -, hcont⟩, hrest⟩ := hgood
      have hnotmem : g.idhex ∉ base := by
        rw [hid]
        simpa using hcont
      have hstep : (base ++ [g.idhex]).Nodup := by
        simp [List.nodup_append, hb, hnotmem]
      have := ih (base ++ [g.idhex]) hrest hstep
      simpa [List.append_assoc] using this

/-- C3 counterexample: when the incoming state already holds the same
fingerprint twice within layer 2 and the layer is already at its target
size, `replenish_layers` returns `Ok` with the duplicate still in place,
so the unconditional no-duplicates clause of the claim fails. -/
theorem c3_counterexample :
    VanguardState.replenish_layers stateDup genEmpty exclEmpty cfgDup
        (fun _ => 0) (fun _ => 0) 0 0
      = Except.ok (stateDup, 0)
    ∧ stateDup.layer2.map GuardNode.idhex = [fpA, fpA]
    ∧ ¬ (stateDup.layer2.map GuardNode.idhex).Nodup := by
  refine ⟨rfl, rfl, ?_⟩
  intro h
  simp [stateDup, guardDup, GuardNode.new] at h

/-- C3 amended: whenever `replenish_layers` returns `Ok`, both layers
hold exactly the configured number of guards; every guard added during
the replenishment came from a drawn router that is not excluded and does
not duplicate a fingerprint already in its layer at the time of the
draw; and, provided the trimmed incoming layers are duplicate-free, the
resulting layers are duplicate-free. -/
theorem c3_replenish_invariants (s : VanguardState)
    (gen : BwWeightedGenerator) (excluded : ExcludeNodes)
    (config : VanguardsConfig) (rand life : ℕ → ℚ) (now : ℚ) (t : ℕ)
    (s2 : VanguardState) (t2 : ℕ)
    (hrep : s.replenish_layers gen excluded config rand life now t
        = Except.ok (s2, t2)) :
    (s2.layer2.length = config.num_layer2_guards
      ∧ s2.layer3.length = config.num_layer3_guards)
    ∧ (∃ added2, s2.layer2 = s.layer2.take config.num_layer2_guards ++ added2
        ∧ goodAdded excluded
            ((s.layer2.take config.num_layer2_guards).map GuardNode.idhex)
            added2)
    ∧ (∃ added3, s2.layer3 = s.layer3.take config.num_layer3_guards ++ added3
        ∧ goodAdded excluded
            ((s.layer3.take config.num_layer3_guards).map GuardNode.idhex)
            added3)
    ∧ (((s.layer2.take config.num_layer2_guards).map GuardNode.idhex).Nodup →
        (s2.layer2.map GuardNode.idhex).Nodup)
    ∧ (((s.layer3.take config.num_layer3_guards).map GuardNode.idhex).Nodup →
        (s2.layer3.map GuardNode.idhex).Nodup) := by
  unfold VanguardState.replenish_layers at hrep
  dsimp only at hrep
  split at hrep
  · exact absurd hrep (by simp)
  · next s1 t1 heq =>
      obtain ⟨added2, hl2, hlen2, hgood2, hl3keep⟩ :=
        fillLayer2_ok gen excluded rand life now _ _ t s1 t1 heq
      obtain ⟨added3, hl3, hlen3, hgood3, hl2keep⟩ :=
        fillLayer3_ok gen excluded rand life now _ _ t1 s2 t2 hrep
      simp only at hl2 hl3 hlen2 hlen3 hgood2 hgood3 hl3keep hl2keep
      have hl2' : s2.layer2 = s.layer2.take config.num_layer2_guards ++ added2 := by
        rw [hl2keep, hl2]
      have hl3' : s2.layer3 = s.layer3.take config.num_layer3_guards ++ added3 := by
        rw [hl3, hl3keep]
      have hgood3' : goodAdded excluded
          ((s.layer3.take config.num_layer3_guards).map GuardNode.idhex) added3 := by
        rw [hl3keep] at hgood3
        exact hgood3
      have hlen3' : added3.length
          = config.num_layer3_guards
            - (s.layer3.take config.num_layer3_guards).length := by
        rw [hl3keep] at hlen3
        exact hlen3
      refine ⟨⟨?_, ?_⟩, ⟨added2, hl2', hgood2⟩, ⟨added3, hl3', hgood3'⟩, ?_, ?_⟩
      · rw [hl2', List.length_append, hlen2, List.length_take]
        omega
      · rw [hl3', List.length_append, hlen3', List.length_take]
        omega
      · intro hnd
        rw [hl2', List.map_append]
        exact goodAdded_nodup excluded added2 _ hgood2 hnd
      · intro hnd
        rw [hl3', List.map_append]
        exact goodAdded_nodup excluded added3 _ hgood3' hnd

/-- C3 witness: the invariants observed on a concrete successful
replenishment run (a duplicate-free state already at its configured
sizes). -/
theorem c3_replenish_invariants_witness :
    ((stateTwo.layer2.length = cfgDup.num_layer2_guards
      ∧ stateTwo.layer3.length = cfgDup.num_layer3_guards)
    ∧ (∃ added2, stateTwo.layer2
          = stateTwo.layer2.take cfgDup.num_layer2_guards ++ added2
        ∧ goodAdded exclEmpty
            ((stateTwo.layer2.take cfgDup.num_layer2_guards).map
              GuardNode.idhex)
            added2)
    ∧ (∃ added3, stateTwo.layer3
          = stateTwo.layer3.take cfgDup.num_layer3_guards ++ added3
        ∧ goodAdded exclEmpty
            ((stateTwo.layer3.take cfgDup.num_layer3_guards).map
              GuardNode.idhex)
            added3)
    ∧ (((stateTwo.layer2.take cfgDup.num_layer2_guards).map
          GuardNode.idhex).Nodup →
        (stateTwo.layer2.map GuardNode.idhex).Nodup)
    ∧ (((stateTwo.layer3.take cfgDup.num_layer3_guards).map
          GuardNode.idhex).Nodup →
        (stateTwo.layer3.map GuardNode.idhex).Nodup)) :=
  c3_replenish_invariants stateTwo genEmpty exclEmpty cfgDup
    (fun _ => 0) (fun _ => 0) 0 0 stateTwo 0 rfl

end VanguardsRs
